import Mathlib

/-
Shallow embedding of the operation dispatch and status-streaming engine of
meshery-istio (istio/istio.go): kubeconfig ingestion with error aggregation,
the operation dispatcher `ApplyOperation`, the streaming verification
consumer, and the two-phase OAM orchestrator `ProcessOAM`.

External collaborators (the kubeconfig handler, the install/apply calls, the
vet producer, the OAM phase handlers) are modelled as oracles: arbitrary
functions supplied as parameters.  The embedding records the calls each
dispatched task makes (its call trace) and the event records it pushes to
the stream sink.
-/

namespace MesheryIstio

/-- Event classification carried by a streamed record (proto enum
`meshes.EventType`: INFO = 0, WARN = 1, ERROR = 2). -/
inductive EventType
  | info
  | warn
  | error
  deriving DecidableEq

/-- `meshes.EventsResponse`: the event record streamed to the caller.
The zero value of the proto enum field is `info`. -/
structure EventsResponse where
  operationId : String
  summary : String
  details : String
  component : String
  componentName : String
  errorCode : String
  probableCause : String
  suggestedRemediation : String
  eventType : EventType
  deriving DecidableEq

/-- A meshkit-style error value: message plus the Error Envelope fields that
`errors.GetCode`, `errors.GetCause` and `errors.GetRemedy` extract. -/
structure MKError where
  message : String
  code : String
  cause : String
  remedy : String
  deriving DecidableEq

/-- `models.Kubeconfig`: the fields of one parsed kubeconfig payload that
`CreateKubeconfigs` forwards to the kubeconfig handler. The four collections
are kept opaque (as strings) since this code never inspects them. -/
structure Kubeconfig where
  kind : String
  apiVersion : String
  currentContext : String
  preferences : String
  clusters : String
  users : String
  contexts : String
  deriving DecidableEq

/-- A successful write performed on the kubeconfig handler. -/
inductive KWrite
  | setKey (key value : String)
  | setObject (key value : String)
  deriving DecidableEq

/-- Oracle for the external `KubeconfigHandler` collaborator, threaded
through an abstract handler state `σ`.  `setKey` also returns an error in Go
but the caller discards it, so only its state effect matters here;
`setObject` returns an error the caller inspects. -/
structure KubeconfigHandler (σ : Type) where
  setKey : σ → String → String → σ × Option String
  setObject : σ → String → String → σ × Option String

/-- The body of `CreateKubeconfigs`' loop for one payload
(istio/istio.go lines 256-291): parse; on failure record the error and move
on; on success write the three scalar keys (SetKey errors are discarded by
the source) and then the four collections in order, stopping this payload at
the first failing `SetObject` but keeping everything already written.
Returns the new handler state, the successful writes, and the recorded
errors (zero or one). -/
def processOne {σ : Type} (parse : String → Except String Kubeconfig)
    (kh : KubeconfigHandler σ) (s : σ) (kubeconfig : String) :
    σ × List KWrite × List String :=
  match parse kubeconfig with
  | .error e => (s, [], [e])
  | .ok k =>
    let s1 := (kh.setKey s "kind" k.kind).1
    let s2 := (kh.setKey s1 "apiVersion" k.apiVersion).1
    let s3 := (kh.setKey s2 "current-context" k.currentContext).1
    let t0 : List KWrite := [.setKey "kind" k.kind, .setKey "apiVersion" k.apiVersion,
      .setKey "current-context" k.currentContext]
    let r1 := kh.setObject s3 "preferences" k.preferences
    match r1.2 with
    | some e => (r1.1, t0, [e])
    | none =>
      let t1 := t0 ++ [KWrite.setObject "preferences" k.preferences]
      let r2 := kh.setObject r1.1 "clusters" k.clusters
      match r2.2 with
      | some e => (r2.1, t1, [e])
      | none =>
        let t2 := t1 ++ [KWrite.setObject "clusters" k.clusters]
        let r3 := kh.setObject r2.1 "users" k.users
        match r3.2 with
        | some e => (r3.1, t2, [e])
        | none =>
          let t3 := t2 ++ [KWrite.setObject "users" k.users]
          let r4 := kh.setObject r3.1 "contexts" k.contexts
          match r4.2 with
          | some e => (r4.1, t3, [e])
          | none => (r4.1, t3 ++ [KWrite.setObject "contexts" k.contexts], [])

/-- The loop of `CreateKubeconfigs` over all payloads, accumulating the
successful writes and the recorded errors in input order. -/
def createKubeconfigsAux {σ : Type} (parse : String → Except String Kubeconfig)
    (kh : KubeconfigHandler σ) : σ → List String → σ × List KWrite × List String
  | s, [] => (s, [], [])
  | s, p :: rest =>
    let r := processOne parse kh s p
    let r2 := createKubeconfigsAux parse kh r.1 rest
    (r2.1, r.2.1 ++ r2.2.1, r.2.2 ++ r2.2.2)

/-- Modelled from the spec: the aggregated failure built by `mergeErrors`
(defined in the repository's error definitions, outside the provided
sources) is "a single aggregated failure (concatenation of all
sub-errors)"; sub-error messages are joined with newlines. -/
def mergeErrors : List String → String
  | [] => ""
  | [e] => e
  | e :: rest => e ++ "\n" ++ mergeErrors rest

/-- `CreateKubeconfigs` (istio/istio.go lines 254-296): process every payload
with `processOne`, then return nil when no error was recorded and the
aggregation of all recorded errors otherwise.  The returned triple is the
final handler state, the write trace and the returned error. -/
def CreateKubeconfigs {σ : Type} (parse : String → Except String Kubeconfig)
    (kh : KubeconfigHandler σ) (s : σ) (kubeconfigs : List String) :
    σ × List KWrite × Option String :=
  let r := createKubeconfigsAux parse kh s kubeconfigs
  (r.1, r.2.1, if r.2.2 = [] then none else some (mergeErrors r.2.2))

/-- The operation-name constants matched by `ApplyOperation`'s switch.  The
distinct string constants live in `internal/config` and the adapter library;
only their identity matters to the dispatcher, so they are modelled as
constructors, with `unknown` covering every other string (the switch's
default branch). -/
inductive OperationName
  | istioOperation
  | bookInfoOperation
  | httpBinOperation
  | imageHubOperation
  | emojiVotoOperation
  | smiConformanceOperation
  | denyAllPolicyOperation
  | strictMTLSPolicyOperation
  | mutualMTLSPolicyOperation
  | disableMTLSPolicyOperation
  | customOperation
  | labelNamespace
  | prometheusAddon
  | grafanaAddon
  | kialiAddon
  | jaegerAddon
  | zipkinAddon
  | istioVetOperation
  | envoyFilterOperation
  | unknown (name : String)
  deriving DecidableEq

/-- Whether an operation name is one of the names the switch recognizes
(everything except the default branch). -/
def OperationName.recognized : OperationName → Bool
  | .unknown _ => false
  | _ => true

/-- The underlying string of an operation name (the addon branch interpolates
the name into its summaries).  Values of the external constants are opaque;
distinct placeholder strings stand in for them. -/
def opNameStr : OperationName → String
  | .istioOperation => "istio"
  | .bookInfoOperation => "bookinfo"
  | .httpBinOperation => "httpbin"
  | .imageHubOperation => "imagehub"
  | .emojiVotoOperation => "emojivoto"
  | .smiConformanceOperation => "smi-conformance"
  | .denyAllPolicyOperation => "deny-all-policy"
  | .strictMTLSPolicyOperation => "strict-mtls-policy"
  | .mutualMTLSPolicyOperation => "mutual-mtls-policy"
  | .disableMTLSPolicyOperation => "disable-mtls-policy"
  | .customOperation => "custom"
  | .labelNamespace => "label-namespace"
  | .prometheusAddon => "prometheus-addon"
  | .grafanaAddon => "grafana-addon"
  | .kialiAddon => "kiali-addon"
  | .jaegerAddon => "jaeger-addon"
  | .zipkinAddon => "zipkin-addon"
  | .istioVetOperation => "istio-vet"
  | .envoyFilterOperation => "envoy-filter"
  | .unknown name => name

/-- `adapter.Operation`: one catalog descriptor, as read by this dispatcher:
ordered supported versions, manifest templates, named additional string
properties and a description. -/
structure Operation where
  versions : List String
  templates : List String
  additionalProperties : List (String × String)
  description : String
  deriving DecidableEq

/-- Go map lookup on the additional-properties map: the zero value (empty
string) when the key is absent. -/
def lookupProp (props : List (String × String)) (key : String) : String :=
  match props.find? (fun kv => kv.1 == key) with
  | some kv => kv.2
  | none => ""

/-- `adapter.OperationRequest` (the Go field `Namespace` keeps its source
capitalization because `namespace` is reserved in Lean). -/
structure OperationRequest where
  operationName : OperationName
  Namespace : String
  isDeleteOperation : Bool
  version : String
  k8sConfigs : List String
  customBody : String
  operationID : String
  deriving DecidableEq

/-- `adapter.SMITestOptions` as populated by the conformance branch (the
context field carries no data relevant here). -/
structure SMITestOptions where
  operationId : String
  labels : List (String × String)
  Namespace : String
  manifest : String
  annotations : List (String × String)
  deriving DecidableEq

/-- One call a dispatched task makes on an external collaborator, with the
arguments the source passes. -/
inductive CollabCall
  | installIstio (del dummy : Bool) (version ns profile : String) (kubeConfigs : List String)
  | installSampleApp (ns : String) (del : Bool) (templates : List String)
      (kubeConfigs : List String)
  | runSMITest (opts : SMITestOptions)
  | applyPolicy (ns : String) (del : Bool) (templates : List String)
      (kubeConfigs : List String)
  | applyCustomOperation (ns : String) (body : String) (del : Bool)
      (kubeConfigs : List String)
  | loadNamespaceToMesh (ns : String) (del : Bool) (kubeConfigs : List String)
  | installAddon (ns : String) (del : Bool) (svcname : String) (patches : List String)
      (templates : List String) (kubeConfigs : List String)
  | patchWithEnvoyFilter (ns : String) (del : Bool) (app : String)
      (templates : List String) (patchFile : String) (kubeConfigs : List String)
  | runVet (kubeConfigs : List String)
  deriving DecidableEq

/-- Oracles for the external mutation collaborators each handler calls.
Each mirrors the Go signature's data, returning the status string and/or
error the source inspects; `runVet` returns the full sequence of records its
producer will emit on the feed channel. -/
structure Collaborators where
  installIstio : Bool → Bool → String → String → String → List String →
    String × Option MKError
  installSampleApp : String → Bool → List String → List String → String × Option MKError
  runSMITest : SMITestOptions → Option MKError
  applyPolicy : String → Bool → List String → List String → String × Option MKError
  applyCustomOperation : String → String → Bool → List String → String × Option MKError
  loadNamespaceToMesh : String → Bool → List String → Option MKError
  installAddon : String → Bool → String → List String → List String → List String →
    String × Option MKError
  patchWithEnvoyFilter : String → Bool → String → List String → String → List String →
    String × Option MKError
  runVet : List String → List EventsResponse

/-- One push to the event stream sink: `StreamInfo`, `StreamWarn` (record plus
the wrapping error) or `StreamErr` (record plus the error). -/
inductive Push
  | info (e : EventsResponse)
  | warn (e : EventsResponse) (err : MKError)
  | error (e : EventsResponse) (err : MKError)
  deriving DecidableEq

/-- The uniform error-enrichment every handler applies before `StreamErr`:
summary replaced, details set to the raw message, and the Error Envelope
fields copied from the failure. -/
def errEnrich (e : EventsResponse) (summary : String) (err : MKError) : EventsResponse :=
  { e with
      summary := summary
      details := err.message
      errorCode := err.code
      probableCause := err.cause
      suggestedRemediation := err.remedy }

/-- The shared tail of every terminal handler: on failure push exactly one
enriched error record and stop; on success push exactly one info record with
the branch's success summary and details. -/
def finishTask (e : EventsResponse) (failSummary okSummary okDetails : String) :
    Option MKError → List Push
  | some err => [.error (errEnrich e failSummary err) err]
  | none => [.info { e with summary := okSummary, details := okDetails }]

/-- Adapter-library status constant `status.Deploying`. -/
def Deploying : String := "Deploying"

/-- Adapter-library status constant `status.Deployed`. -/
def Deployed : String := "Deployed"

/-- Adapter-library status constant `status.Running`. -/
def Running : String := "Running"

/-- Adapter-library status constant `status.Completed`. -/
def Completed : String := "Completed"

/-- Modelled from the spec: the invalid-operation dispatch error
(`ErrOpInvalid`, defined in the repository's error definitions outside the
provided sources); the spec calls it the "invalid operation" error. -/
def ErrOpInvalid : MKError :=
  { message := "invalid operation", code := "ErrOpInvalidCode", cause := "", remedy := "" }

/-- Modelled from the spec: the error raised when a version-bearing
operation's descriptor has no versions (`ErrFetchIstioVersions`, defined
outside the provided sources); the spec calls it the "no versions available"
error. -/
def ErrFetchIstioVersions : MKError :=
  { message := "no versions available"
    code := "ErrFetchIstioVersionsCode"
    cause := ""
    remedy := "" }

/-- Modelled from the spec: the Error Envelope the streaming consumer wraps
around an error or warning record, "derived from its details text"
(`ErrIstioVet`, defined outside the provided sources). -/
def ErrIstioVet (details : String) : MKError :=
  { message := details, code := "ErrIstioVetCode", cause := "", remedy := "" }

/-- External property-key constant `common.ServiceName` (opaque value). -/
def ServiceName : String := "service-name-key"

/-- External property-key constant `internalconfig.ServicePatchFile`. -/
def ServicePatchFile : String := "service-patch-file-key"

/-- External property-key constant `internalconfig.FilterPatchFile`. -/
def FilterPatchFile : String := "filter-patch-file-key"

/-- The control-plane lifecycle task (istio/istio.go lines 64-88): with no
versions in the descriptor the error is `ErrFetchIstioVersions` and no
install call happens (stat and version stay empty); otherwise the effective
version starts as the last catalog entry and is replaced by the requested
version when the catalog contains it, and `installIstio` is called with it. -/
def istioOperationTask (c : Collaborators) (op : Operation) (opReq : OperationRequest)
    (e : EventsResponse) : List CollabCall × List Push :=
  if op.versions.length = 0 then
    ([], finishTask e ("Error while " ++ "" ++ " Istio service mesh " ++ "")
      ("Istio service mesh " ++ "" ++ " " ++ "" ++ " successfully")
      ("The Istio service mesh " ++ "" ++ " is now " ++ "" ++ ".")
      (some ErrFetchIstioVersions))
  else
    let version0 := op.versions.getLastD ""
    let version := if op.versions.contains opReq.version then opReq.version else version0
    let ir := c.installIstio opReq.isDeleteOperation false version opReq.Namespace
      "default" opReq.k8sConfigs
    ([CollabCall.installIstio opReq.isDeleteOperation false version opReq.Namespace
        "default" opReq.k8sConfigs],
      finishTask e ("Error while " ++ ir.1 ++ " Istio service mesh " ++ version)
        ("Istio service mesh " ++ version ++ " " ++ ir.1 ++ " successfully")
        ("The Istio service mesh " ++ version ++ " is now " ++ ir.1 ++ ".") ir.2)

/-- The sample-application task (lines 90-105). -/
def sampleAppTask (c : Collaborators) (op : Operation) (opReq : OperationRequest)
    (e : EventsResponse) : List CollabCall × List Push :=
  let appName := lookupProp op.additionalProperties ServiceName
  let r := c.installSampleApp opReq.Namespace opReq.isDeleteOperation op.templates
    opReq.k8sConfigs
  ([CollabCall.installSampleApp opReq.Namespace opReq.isDeleteOperation op.templates
      opReq.k8sConfigs],
    finishTask e ("Error while " ++ r.1 ++ " Istio service mesh")
      (appName ++ " application " ++ r.1 ++ " successfully")
      ("The " ++ appName ++ " application is now " ++ r.1 ++ ".") r.2)

/-- The conformance-test task (lines 106-131).  The namespace passed to the
test runner is the literal "meshery"; the request's target namespace is not
used.  The manifest is the descriptor's first template: the source indexes
`Templates[0]`, so with an empty template list the goroutine panics on the
out-of-range index before the test runner is ever called — on that path no
collaborator call is made and nothing is pushed (the crash itself has no
representation in the trace vocabulary). -/
def smiConformanceTask (c : Collaborators) (op : Operation) (_opReq : OperationRequest)
    (e : EventsResponse) : List CollabCall × List Push :=
  match op.templates[0]? with
  | none => ([], [])
  | some manifest0 =>
    let name := op.description
    let opts : SMITestOptions :=
      { operationId := e.operationId
        labels := [("istio-injection", "enabled")]
        Namespace := "meshery"
        manifest := manifest0
        annotations := [] }
    let r := c.runSMITest opts
    ([CollabCall.runSMITest opts],
      finishTask e ("Error while " ++ Running ++ " " ++ name ++ " test")
        (name ++ " test " ++ Completed ++ " successfully") "" r)

/-- The policy task (lines 132-147). -/
def policyTask (c : Collaborators) (op : Operation) (opReq : OperationRequest)
    (e : EventsResponse) : List CollabCall × List Push :=
  let r := c.applyPolicy opReq.Namespace opReq.isDeleteOperation op.templates
    opReq.k8sConfigs
  ([CollabCall.applyPolicy opReq.Namespace opReq.isDeleteOperation op.templates
      opReq.k8sConfigs],
    finishTask e ("Error while " ++ r.1 ++ " policy")
      ("Policy " ++ Deployed ++ " successfully") "" r.2)

/-- The ad-hoc manifest task (lines 148-163). -/
def customOperationTask (c : Collaborators) (opReq : OperationRequest)
    (e : EventsResponse) : List CollabCall × List Push :=
  let r := c.applyCustomOperation opReq.Namespace opReq.customBody
    opReq.isDeleteOperation opReq.k8sConfigs
  ([CollabCall.applyCustomOperation opReq.Namespace opReq.customBody
      opReq.isDeleteOperation opReq.k8sConfigs],
    finishTask e ("Error while " ++ r.1 ++ " custom operation")
      ("Manifest " ++ Deployed ++ " successfully") "" r.2)

/-- The namespace-labeling task (lines 164-183). -/
def labelNamespaceTask (c : Collaborators) (opReq : OperationRequest)
    (e : EventsResponse) : List CollabCall × List Push :=
  let r := c.loadNamespaceToMesh opReq.Namespace opReq.isDeleteOperation opReq.k8sConfigs
  let operation := if opReq.isDeleteOperation then "removed" else "enabled"
  ([CollabCall.loadNamespaceToMesh opReq.Namespace opReq.isDeleteOperation
      opReq.k8sConfigs],
    finishTask e ("Error while labeling " ++ opReq.Namespace)
      ("Label updated on " ++ opReq.Namespace ++ " namespace")
      ("ISTIO-INJECTION label " ++ operation ++ " on " ++ opReq.Namespace ++ " namespace")
      r)

/-- The addon lifecycle task (lines 184-208). -/
def addonTask (c : Collaborators) (op : Operation) (opReq : OperationRequest)
    (e : EventsResponse) : List CollabCall × List Push :=
  let svcname := lookupProp op.additionalProperties ServiceName
  let patches := [lookupProp op.additionalProperties ServicePatchFile]
  let r := c.installAddon opReq.Namespace opReq.isDeleteOperation svcname patches
    op.templates opReq.k8sConfigs
  let operation := if opReq.isDeleteOperation then "uninstall" else "install"
  let nameStr := opNameStr opReq.operationName
  ([CollabCall.installAddon opReq.Namespace opReq.isDeleteOperation svcname patches
      op.templates opReq.k8sConfigs],
    finishTask e ("Error while " ++ operation ++ "ing " ++ nameStr)
      ("Successfully " ++ operation ++ "ed " ++ nameStr)
      ("Successfully " ++ operation ++ "ed " ++ nameStr ++ " from the "
        ++ opReq.Namespace ++ " namespace") r.2)

/-- The streaming verification task (lines 209-227): consume every record the
producer emits, in production order, until the feed closes; error records
are forwarded via `StreamErr` wrapped with `ErrIstioVet` of their details
text, warnings via `StreamWarn` likewise, everything else via `StreamInfo`. -/
def istioVetTask (c : Collaborators) (kubeConfigs : List String) :
    List CollabCall × List Push :=
  ([CollabCall.runVet kubeConfigs],
    (c.runVet kubeConfigs).map (fun msg =>
      match msg.eventType with
      | .error => Push.error msg (ErrIstioVet msg.details)
      | .warn => Push.warn msg (ErrIstioVet msg.details)
      | .info => Push.info msg))

/-- The traffic-filter patch task (lines 228-245). -/
def envoyFilterTask (c : Collaborators) (op : Operation) (opReq : OperationRequest)
    (e : EventsResponse) : List CollabCall × List Push :=
  let appName := lookupProp op.additionalProperties ServiceName
  let patchFile := lookupProp op.additionalProperties FilterPatchFile
  let r := c.patchWithEnvoyFilter opReq.Namespace opReq.isDeleteOperation appName
    op.templates patchFile opReq.k8sConfigs
  ([CollabCall.patchWithEnvoyFilter opReq.Namespace opReq.isDeleteOperation appName
      op.templates patchFile opReq.k8sConfigs],
    finishTask e ("Error while " ++ r.1 ++ " " ++ appName ++ " application")
      (appName ++ " application " ++ r.1 ++ " successfully")
      ("The " ++ appName ++ " application is now " ++ r.1 ++ ".") r.2)

/-- The acknowledgement returned by `ApplyOperation` together with what it
did synchronously: the returned error (`none` is Go's nil), the pushes made
on the dispatcher's own goroutine, and the launched task's behavior (call
trace and pushes), when one was launched. -/
structure DispatchResult where
  ret : Option String
  syncPushes : List Push
  task : Option (List CollabCall × List Push)
  deriving DecidableEq

/-- The initial event record `ApplyOperation` builds before dispatching
(istio/istio.go lines 55-61): placeholder summary and details, the request's
operation id, and the server's component tags; the remaining fields keep
their zero values. -/
def initialRecord (opReq : OperationRequest) (serverType serverName : String) :
    EventsResponse :=
  { operationId := opReq.operationID
    summary := Deploying
    details := "Operation is not supported"
    component := serverType
    componentName := serverName
    errorCode := ""
    probableCause := ""
    suggestedRemediation := ""
    eventType := .info }

/-- `ApplyOperation` (istio/istio.go lines 42-251): ingest the kubeconfigs
(failure returned synchronously), load the operation catalog (failure
returned synchronously), build the initial event record with the placeholder
summary, then launch the handler selected by the operation name as a
detached task — or, for an unrecognized name, push one error record with
`ErrOpInvalid` synchronously — and return nil. -/
def ApplyOperation {σ : Type} (parse : String → Except String Kubeconfig)
    (kh : KubeconfigHandler σ) (s : σ)
    (getOperations : Except String (OperationName → Operation))
    (c : Collaborators) (serverType serverName : String)
    (opReq : OperationRequest) : DispatchResult :=
  match (CreateKubeconfigs parse kh s opReq.k8sConfigs).2.2 with
  | some err => { ret := some err, syncPushes := [], task := none }
  | none =>
    match getOperations with
    | .error err => { ret := some err, syncPushes := [], task := none }
    | .ok operations =>
      let e : EventsResponse := initialRecord opReq serverType serverName
      match opReq.operationName with
      | .istioOperation =>
        { ret := none, syncPushes := [],
          task := some (istioOperationTask c (operations opReq.operationName) opReq e) }
      | .bookInfoOperation | .httpBinOperation | .imageHubOperation
      | .emojiVotoOperation =>
        { ret := none, syncPushes := [],
          task := some (sampleAppTask c (operations opReq.operationName) opReq e) }
      | .smiConformanceOperation =>
        { ret := none, syncPushes := [],
          task := some (smiConformanceTask c (operations opReq.operationName) opReq e) }
      | .denyAllPolicyOperation | .strictMTLSPolicyOperation
      | .mutualMTLSPolicyOperation | .disableMTLSPolicyOperation =>
        { ret := none, syncPushes := [],
          task := some (policyTask c (operations opReq.operationName) opReq e) }
      | .customOperation =>
        { ret := none, syncPushes := [],
          task := some (customOperationTask c opReq e) }
      | .labelNamespace =>
        { ret := none, syncPushes := [],
          task := some (labelNamespaceTask c opReq e) }
      | .prometheusAddon | .grafanaAddon | .kialiAddon | .jaegerAddon
      | .zipkinAddon =>
        { ret := none, syncPushes := [],
          task := some (addonTask c (operations opReq.operationName) opReq e) }
      | .istioVetOperation =>
        { ret := none, syncPushes := [],
          task := some (istioVetTask c opReq.k8sConfigs) }
      | .envoyFilterOperation =>
        { ret := none, syncPushes := [],
          task := some (envoyFilterTask c (operations opReq.operationName) opReq e) }
      | .unknown _ =>
        { ret := none, syncPushes := [Push.error e ErrOpInvalid], task := none }

/-- A parsed OAM application component (opaque to this orchestrator). -/
abbrev Component := String

/-- A parsed OAM application configuration (opaque to this orchestrator). -/
abbrev OAMConfig := String

/-- `adapter.OAMRequest` as read by `ProcessOAM`. -/
structure OAMRequest where
  oamComps : List String
  oamConfig : String
  deleteOp : Bool
  k8sConfigs : List String
  deriving DecidableEq

/-- One call `ProcessOAM` makes on a phase collaborator, in execution order. -/
inductive OAMCall
  | handleComponents (comps : List Component) (del : Bool) (kubeConfigs : List String)
  | handleConfiguration (config : OAMConfig) (del : Bool) (kubeConfigs : List String)
  deriving DecidableEq

/-- Oracles for the two phase collaborators of the composite orchestrator. -/
structure OAMCollaborators where
  handleComponents : List Component → Bool → List String → String × Option MKError
  handleApplicationConfiguration : OAMConfig → Bool → List String → String × Option MKError

/-- Modelled from the spec: the composite-failure wrapper applied to a phase
error by the orchestrator (`ErrProcessOAM`, defined in the repository's
error definitions outside the provided sources). -/
def ErrProcessOAM (err : MKError) : MKError :=
  { err with code := "ErrProcessOAMCode" }

/-- `ProcessOAM` (istio/istio.go lines 299-350): ingest kubeconfigs (failure
returned at once), parse each component (parse failures are logged and the
component skipped), parse the configuration (a parse failure is only
logged; the zero value is still used), then run the two phases —
configuration before components when the delete flag is set, components
before configuration otherwise — returning the phase call trace, the
composite message and the wrapped error.  When the first-executed phase
fails, only that phase's message is returned; otherwise the message is the
components message, a newline, and the configuration message. -/
def ProcessOAM {σ : Type} (parse : String → Except String Kubeconfig)
    (kh : KubeconfigHandler σ) (s : σ)
    (parseComp : String → Except String Component)
    (parseCfg : String → OAMConfig × Option String)
    (oc : OAMCollaborators) (oamReq : OAMRequest) :
    List OAMCall × String × Option MKError :=
  match (CreateKubeconfigs parse kh s oamReq.k8sConfigs).2.2 with
  | some err => ([], "", some { message := err, code := "", cause := "", remedy := "" })
  | none =>
    let kubeconfigs := oamReq.k8sConfigs
    let comps := oamReq.oamComps.filterMap (fun acomp => (parseComp acomp).toOption)
    let config := (parseCfg oamReq.oamConfig).1
    if oamReq.deleteOp then
      let r2 := oc.handleApplicationConfiguration config oamReq.deleteOp kubeconfigs
      match r2.2 with
      | some err =>
        ([OAMCall.handleConfiguration config oamReq.deleteOp kubeconfigs],
          r2.1, some (ErrProcessOAM err))
      | none =>
        let r1 := oc.handleComponents comps oamReq.deleteOp kubeconfigs
        match r1.2 with
        | some err =>
          ([OAMCall.handleConfiguration config oamReq.deleteOp kubeconfigs,
            OAMCall.handleComponents comps oamReq.deleteOp kubeconfigs],
            r1.1 ++ "\n" ++ r2.1, some (ErrProcessOAM err))
        | none =>
          ([OAMCall.handleConfiguration config oamReq.deleteOp kubeconfigs,
            OAMCall.handleComponents comps oamReq.deleteOp kubeconfigs],
            r1.1 ++ "\n" ++ r2.1, none)
    else
      let r1 := oc.handleComponents comps oamReq.deleteOp kubeconfigs
      match r1.2 with
      | some err =>
        ([OAMCall.handleComponents comps oamReq.deleteOp kubeconfigs],
          r1.1, some (ErrProcessOAM err))
      | none =>
        let r2 := oc.handleApplicationConfiguration config oamReq.deleteOp kubeconfigs
        match r2.2 with
        | some err =>
          ([OAMCall.handleComponents comps oamReq.deleteOp kubeconfigs,
            OAMCall.handleConfiguration config oamReq.deleteOp kubeconfigs],
            r1.1 ++ "\n" ++ r2.1, some (ErrProcessOAM err))
        | none =>
          ([OAMCall.handleComponents comps oamReq.deleteOp kubeconfigs,
            OAMCall.handleConfiguration config oamReq.deleteOp kubeconfigs],
            r1.1 ++ "\n" ++ r2.1, none)

/-- Whether a string occurs inside another, character-list search (used to
state the "summary contains ..." clauses executably). -/
def leadsChars : List Char → List Char → Bool
  | [], _ => true
  | _ :: _, [] => false
  | a :: as, b :: bs => a == b && leadsChars as bs

/-- `occursInChars sub l` holds when `sub` occurs contiguously in `l`. -/
def occursInChars (sub : List Char) : List Char → Bool
  | [] => leadsChars sub []
  | b :: bs => leadsChars sub (b :: bs) || occursInChars sub bs

/-- `strOccursIn sub s`: the substring test on strings. -/
def strOccursIn (sub s : String) : Bool :=
  occursInChars sub.data s.data

/-! Concrete oracle instances used by witnesses and counterexamples. -/

/-- A concrete parse oracle: the payload "bad" fails to parse, everything
else parses to a kubeconfig derived from the payload text. -/
def parse0 : String → Except String Kubeconfig := fun p =>
  if p == "bad" then .error "bad yaml" else
    .ok { kind := "Config", apiVersion := "v1", currentContext := "ctx",
          preferences := "prefs-" ++ p, clusters := "cl-" ++ p,
          users := "us-" ++ p, contexts := "cx-" ++ p }

/-- A concrete kubeconfig handler whose writes always succeed. -/
def kh0 : KubeconfigHandler Unit :=
  { setKey := fun _ _ _ => ((), none)
    setObject := fun _ _ _ => ((), none) }

/-- A concrete kubeconfig handler that fails merging the clusters collection. -/
def khFailClusters : KubeconfigHandler Unit :=
  { setKey := fun _ _ _ => ((), none)
    setObject := fun _ key _ => ((), if key == "clusters" then some "merge failed" else none) }

/-- Concrete always-succeeding mutation collaborators. -/
def c0 : Collaborators :=
  { installIstio := fun _ _ _ _ _ _ => (Deployed, none)
    installSampleApp := fun _ _ _ _ => (Deployed, none)
    runSMITest := fun _ => none
    applyPolicy := fun _ _ _ _ => (Deployed, none)
    applyCustomOperation := fun _ _ _ _ => (Deployed, none)
    loadNamespaceToMesh := fun _ _ _ => none
    installAddon := fun _ _ _ _ _ _ => (Deployed, none)
    patchWithEnvoyFilter := fun _ _ _ _ _ _ => (Deployed, none)
    runVet := fun _ => [] }

/-- A concrete catalog: every descriptor supports versions 1.1 and 1.2. -/
def ops0 : OperationName → Operation := fun _ =>
  { versions := ["1.1", "1.2"], templates := [], additionalProperties := [],
    description := "smi" }

/-- A concrete catalog whose descriptors carry no versions. -/
def opsNoVersions : OperationName → Operation := fun _ =>
  { versions := [], templates := [], additionalProperties := [], description := "" }

/-- A concrete catalog for the conformance branch: one manifest template, so
the source's `Templates[0]` access is in range. -/
def opsSMI : OperationName → Operation := fun _ =>
  { versions := ["1.1"], templates := ["smi-manifest"], additionalProperties := [],
    description := "smi" }

/-- A concrete control-plane lifecycle request asking for version 1.1. -/
def req0 : OperationRequest :=
  { operationName := .istioOperation, Namespace := "ns1", isDeleteOperation := false,
    version := "1.1", k8sConfigs := [], customBody := "", operationID := "op1" }

/-- A concrete conformance-test request targeting namespace "foo". -/
def reqSMI : OperationRequest :=
  { operationName := .smiConformanceOperation, Namespace := "foo",
    isDeleteOperation := false, version := "", k8sConfigs := [], customBody := "",
    operationID := "op1" }

/-- A concrete request with an operation name outside the recognized set. -/
def reqUnknown : OperationRequest :=
  { operationName := .unknown "bogus", Namespace := "default",
    isDeleteOperation := false, version := "", k8sConfigs := [], customBody := "",
    operationID := "op1" }

/-! Claim theorems. -/

/-- C1: for every dispatched control-plane lifecycle operation whose catalog
descriptor has a non-empty version list, the effective version used for the
install/uninstall call equals the caller-requested version when that version
occurs in the descriptor's supported list, and otherwise equals the last
element of that list. -/
theorem C1_effective_version {σ : Type} (parse : String → Except String Kubeconfig)
    (kh : KubeconfigHandler σ) (s : σ) (ops : OperationName → Operation)
    (c : Collaborators) (st sn : String) (opReq : OperationRequest)
    (hk : (CreateKubeconfigs parse kh s opReq.k8sConfigs).2.2 = none)
    (hop : opReq.operationName = .istioOperation)
    (hv : (ops .istioOperation).versions ≠ []) :
    ∃ t, (ApplyOperation parse kh s (.ok ops) c st sn opReq).task = some t ∧
      t.1 = [CollabCall.installIstio opReq.isDeleteOperation false
        (if opReq.version ∈ (ops .istioOperation).versions then opReq.version
          else (ops .istioOperation).versions.getLast hv)
        opReq.Namespace "default" opReq.k8sConfigs] := by
  have hlen : ¬(ops .istioOperation).versions.length = 0 := by
    simpa [List.length_eq_zero] using hv
  refine ⟨istioOperationTask c (ops .istioOperation) opReq (initialRecord opReq st sn),
    by simp [ApplyOperation, hk, hop], ?_⟩
  by_cases hmem : opReq.version ∈ (ops .istioOperation).versions
  · have hcon : (ops .istioOperation).versions.elem opReq.version = true :=
      List.elem_iff.mpr hmem
    simp [istioOperationTask, hlen, List.contains, hcon, hmem]
  · have hcon : (ops .istioOperation).versions.elem opReq.version = false := by
      simpa using fun hcc => hmem (List.elem_iff.mp hcc)
    simp [istioOperationTask, hlen, List.contains, hcon, hmem,
      List.getLastD_eq_getLast?, List.getLast?_eq_getLast _ hv]

/-- Witness for C1: a concrete dispatch where the requested version 1.1 is in
the supported list, so the install call uses 1.1. -/
theorem C1_effective_version_witness :
    ∃ t, (ApplyOperation parse0 kh0 () (.ok ops0) c0 "istio" "meshery-istio" req0).task
        = some t ∧
      t.1 = [CollabCall.installIstio false false "1.1" "ns1" "default" []] := by
  obtain ⟨t, ht, hcall⟩ := C1_effective_version parse0 kh0 () ops0 c0 "istio"
    "meshery-istio" req0 rfl rfl (by decide)
  refine ⟨t, ht, ?_⟩
  rw [hcall]
  decide

/-- C9: when the control-plane lifecycle descriptor has no versions, the task
records the "no versions available" error (and only it) on the stream, and
the install collaborator is never called. -/
theorem C9_no_versions_no_install {σ : Type} (parse : String → Except String Kubeconfig)
    (kh : KubeconfigHandler σ) (s : σ) (ops : OperationName → Operation)
    (c : Collaborators) (st sn : String) (opReq : OperationRequest)
    (hk : (CreateKubeconfigs parse kh s opReq.k8sConfigs).2.2 = none)
    (hop : opReq.operationName = .istioOperation)
    (hv0 : (ops .istioOperation).versions = []) :
    ∃ t, (ApplyOperation parse kh s (.ok ops) c st sn opReq).task = some t ∧
      t.1 = [] ∧
      (∃ ev, t.2 = [Push.error ev ErrFetchIstioVersions] ∧
        ev.details = ErrFetchIstioVersions.message) ∧
      ErrFetchIstioVersions.message = "no versions available" := by
  refine ⟨istioOperationTask c (ops .istioOperation) opReq (initialRecord opReq st sn),
    by simp [ApplyOperation, hk, hop], ?_, ?_, rfl⟩
  · simp [istioOperationTask, hv0]
  · exact ⟨errEnrich (initialRecord opReq st sn)
      ("Error while " ++ "" ++ " Istio service mesh " ++ "") ErrFetchIstioVersions,
      by simp [istioOperationTask, hv0, finishTask], rfl⟩

/-- Witness for C9 at a concrete dispatch with an empty version list. -/
theorem C9_no_versions_no_install_witness :
    ∃ t, (ApplyOperation parse0 kh0 () (.ok opsNoVersions) c0 "istio"
        "meshery-istio" req0).task = some t ∧
      t.1 = [] ∧
      (∃ ev, t.2 = [Push.error ev ErrFetchIstioVersions] ∧
        ev.details = ErrFetchIstioVersions.message) ∧
      ErrFetchIstioVersions.message = "no versions available" :=
  C9_no_versions_no_install parse0 kh0 () opsNoVersions c0 "istio" "meshery-istio"
    req0 rfl rfl rfl

/-- C2: the acknowledgement returned by `ApplyOperation` reports only
dispatch-time failures.  (i) A kubeconfig ingestion failure is returned
synchronously with no push and no task; (ii) a catalog lookup failure
likewise; (iii) every recognized operation yields a nil return, no
synchronous push, and a launched task; (iv) the return value never depends
on the mutation collaborators, so a handler execution failure can never
travel through it; (v)-(vi) the shared terminal tail every handler uses
turns a collaborator failure into exactly one error event record with the
enriched envelope, and a success into exactly one info record. -/
theorem C2_ack_reports_only_dispatch_failures :
    (∀ (σ : Type) (parse : String → Except String Kubeconfig)
        (kh : KubeconfigHandler σ) (s : σ)
        (cat : Except String (OperationName → Operation)) (c : Collaborators)
        (st sn : String) (opReq : OperationRequest) (m : String),
      (CreateKubeconfigs parse kh s opReq.k8sConfigs).2.2 = some m →
      ApplyOperation parse kh s cat c st sn opReq =
        { ret := some m, syncPushes := [], task := none }) ∧
    (∀ (σ : Type) (parse : String → Except String Kubeconfig)
        (kh : KubeconfigHandler σ) (s : σ) (m : String) (c : Collaborators)
        (st sn : String) (opReq : OperationRequest),
      (CreateKubeconfigs parse kh s opReq.k8sConfigs).2.2 = none →
      ApplyOperation parse kh s (.error m) c st sn opReq =
        { ret := some m, syncPushes := [], task := none }) ∧
    (∀ (σ : Type) (parse : String → Except String Kubeconfig)
        (kh : KubeconfigHandler σ) (s : σ) (ops : OperationName → Operation)
        (c : Collaborators) (st sn : String) (opReq : OperationRequest),
      (CreateKubeconfigs parse kh s opReq.k8sConfigs).2.2 = none →
      opReq.operationName.recognized = true →
      (ApplyOperation parse kh s (.ok ops) c st sn opReq).ret = none ∧
      (ApplyOperation parse kh s (.ok ops) c st sn opReq).syncPushes = [] ∧
      (ApplyOperation parse kh s (.ok ops) c st sn opReq).task.isSome = true) ∧
    (∀ (σ : Type) (parse : String → Except String Kubeconfig)
        (kh : KubeconfigHandler σ) (s : σ)
        (cat : Except String (OperationName → Operation)) (c c' : Collaborators)
        (st sn : String) (opReq : OperationRequest),
      (ApplyOperation parse kh s cat c st sn opReq).ret =
        (ApplyOperation parse kh s cat c' st sn opReq).ret) ∧
    (∀ (e : EventsResponse) (fs os od : String) (err : MKError),
      finishTask e fs os od (some err) = [Push.error (errEnrich e fs err) err]) ∧
    (∀ (e : EventsResponse) (fs os od : String),
      finishTask e fs os od none = [Push.info { e with summary := os, details := od }]) := by
  refine ⟨?_, ?_, ?_, ?_, ?_, ?_⟩
  · intro σ parse kh s cat c st sn opReq m hm
    simp [ApplyOperation, hm]
  · intro σ parse kh s m c st sn opReq hk
    simp [ApplyOperation, hk]
  · intro σ parse kh s ops c st sn opReq hk hrec
    cases hop : opReq.operationName <;>
      simp_all [ApplyOperation, OperationName.recognized]
  · intro σ parse kh s cat c c' st sn opReq
    cases hkk : (CreateKubeconfigs parse kh s opReq.k8sConfigs).2.2 with
    | some m => simp [ApplyOperation, hkk]
    | none =>
      cases cat with
      | error m => simp [ApplyOperation, hkk]
      | ok ops => cases hop : opReq.operationName <;> simp [ApplyOperation, hkk, hop]
  · intro e fs os od err
    rfl
  · intro e fs os od
    rfl

/-- Witness for C2: at a concrete recognized dispatch with clean pre-checks
the acknowledgement is nil. -/
theorem C2_ack_witness :
    (ApplyOperation parse0 kh0 () (.ok ops0) c0 "istio" "meshery-istio" req0).ret
      = none :=
  (C2_ack_reports_only_dispatch_failures.2.2.1 Unit parse0 kh0 () ops0 c0 "istio"
    "meshery-istio" req0 rfl rfl).1

/-- C6 counterexample: at a concrete dispatch of the unrecognized name
"bogus" exactly one synchronous error record is pushed and no task launched,
but that record's summary is the placeholder status "Deploying" — it does
not contain "invalid operation" (that text travels only in the attached
error value). -/
theorem C6_counterexample :
    (ApplyOperation parse0 kh0 () (.ok ops0) c0 "istio" "meshery-istio"
        reqUnknown).task = none ∧
    (ApplyOperation parse0 kh0 () (.ok ops0) c0 "istio" "meshery-istio"
        reqUnknown).syncPushes =
      [Push.error
        { operationId := "op1", summary := "Deploying",
          details := "Operation is not supported", component := "istio",
          componentName := "meshery-istio", errorCode := "", probableCause := "",
          suggestedRemediation := "", eventType := .info } ErrOpInvalid] ∧
    strOccursIn "invalid operation" "Deploying" = false :=
  ⟨rfl, rfl, rfl⟩

/-- C6 amended: for every operation name outside the recognized set (and
clean pre-checks), `ApplyOperation` launches no task, returns nil, and
pushes exactly one synchronous error event record — the initial placeholder
record (summary `Deploying`, details "Operation is not supported") carrying
the invalid-operation error. -/
theorem C6_invalid_operation {σ : Type} (parse : String → Except String Kubeconfig)
    (kh : KubeconfigHandler σ) (s : σ) (ops : OperationName → Operation)
    (c : Collaborators) (st sn : String) (opReq : OperationRequest) (name : String)
    (hk : (CreateKubeconfigs parse kh s opReq.k8sConfigs).2.2 = none)
    (hop : opReq.operationName = .unknown name) :
    ApplyOperation parse kh s (.ok ops) c st sn opReq =
      { ret := none,
        syncPushes := [Push.error (initialRecord opReq st sn) ErrOpInvalid],
        task := none } := by
  simp [ApplyOperation, hk, hop]

/-- Witness for the amended C6 at the concrete "bogus" dispatch. -/
theorem C6_invalid_operation_witness :
    ApplyOperation parse0 kh0 () (.ok ops0) c0 "istio" "meshery-istio" reqUnknown =
      { ret := none,
        syncPushes := [Push.error (initialRecord reqUnknown "istio" "meshery-istio")
          ErrOpInvalid],
        task := none } :=
  C6_invalid_operation parse0 kh0 () ops0 c0 "istio" "meshery-istio" reqUnknown
    "bogus" rfl rfl

/-- C8 counterexample: at a concrete conformance-test dispatch whose request
targets namespace "foo" (with a descriptor carrying a manifest template, so
the source's `Templates[0]` access is in range), the test-suite call is made
with namespace "meshery", not the request's target namespace. -/
theorem C8_counterexample :
    ((ApplyOperation parse0 kh0 () (.ok opsSMI) c0 "istio" "meshery-istio"
        reqSMI).task.map (fun t => t.1)) =
      some [CollabCall.runSMITest
        { operationId := "op1", labels := [("istio-injection", "enabled")],
          Namespace := "meshery", manifest := "smi-manifest", annotations := [] }] ∧
    reqSMI.Namespace = "foo" ∧ ("meshery" : String) ≠ "foo" :=
  ⟨rfl, rfl, by decide⟩

/-- C8 amended: for every conformance-test dispatch with clean pre-checks
whose descriptor has a first template (otherwise the source panics on
`Templates[0]` before reaching the runner), the test suite is run against
the fixed namespace "meshery" — with the istio-injection label selector, the
request's operation id and that first template — regardless of the request's
target namespace. -/
theorem C8_smi_fixed_namespace {σ : Type} (parse : String → Except String Kubeconfig)
    (kh : KubeconfigHandler σ) (s : σ) (ops : OperationName → Operation)
    (c : Collaborators) (st sn : String) (opReq : OperationRequest) (m0 : String)
    (hk : (CreateKubeconfigs parse kh s opReq.k8sConfigs).2.2 = none)
    (hop : opReq.operationName = .smiConformanceOperation)
    (ht : (ops .smiConformanceOperation).templates[0]? = some m0) :
    ∃ t, (ApplyOperation parse kh s (.ok ops) c st sn opReq).task = some t ∧
      t.1 = [CollabCall.runSMITest
        { operationId := opReq.operationID
          labels := [("istio-injection", "enabled")]
          Namespace := "meshery"
          manifest := m0
          annotations := [] }] := by
  refine ⟨smiConformanceTask c (ops .smiConformanceOperation) opReq
    (initialRecord opReq st sn), by simp [ApplyOperation, hk, hop], ?_⟩
  simp [smiConformanceTask, ht, initialRecord]

/-- Witness for the amended C8 at the concrete "foo"-targeting request. -/
theorem C8_smi_fixed_namespace_witness :
    ∃ t, (ApplyOperation parse0 kh0 () (.ok opsSMI) c0 "istio" "meshery-istio"
        reqSMI).task = some t ∧
      t.1 = [CollabCall.runSMITest
        { operationId := "op1", labels := [("istio-injection", "enabled")],
          Namespace := "meshery", manifest := "smi-manifest", annotations := [] }] := by
  obtain ⟨t, ht, hcall⟩ := C8_smi_fixed_namespace parse0 kh0 () opsSMI c0 "istio"
    "meshery-istio" reqSMI "smi-manifest" rfl rfl rfl
  refine ⟨t, ht, ?_⟩
  rw [hcall]
  decide

/-- A vet record fixture with a given classification and details text. -/
def vetRec (t : EventType) (d : String) : EventsResponse :=
  { operationId := "op1", summary := "vet", details := d, component := "istio",
    componentName := "meshery-istio", errorCode := "", probableCause := "",
    suggestedRemediation := "", eventType := t }

/-- Collaborators whose vet producer emits the spec's
info, warning, error, info scenario. -/
def cVet : Collaborators :=
  { c0 with runVet := fun _ =>
      [vetRec .info "i1", vetRec .warn "w1", vetRec .error "e1", vetRec .info "i2"] }

/-- A concrete verification-operation request. -/
def reqVet : OperationRequest :=
  { operationName := .istioVetOperation, Namespace := "default",
    isDeleteOperation := false, version := "", k8sConfigs := [], customBody := "",
    operationID := "op1" }

/-- C5: the verification task forwards every record its producer emits, in
production order and without dropping any (the consumer runs to the end of
the feed, never terminating the producer early): the pushed sequence has the
producer's length, and the i-th push wraps the i-th produced record — error
and warning records with the envelope derived from their details text,
everything else passed through as info. -/
theorem C5_vet_forwarding {σ : Type} (parse : String → Except String Kubeconfig)
    (kh : KubeconfigHandler σ) (s : σ) (ops : OperationName → Operation)
    (c : Collaborators) (st sn : String) (opReq : OperationRequest)
    (hk : (CreateKubeconfigs parse kh s opReq.k8sConfigs).2.2 = none)
    (hop : opReq.operationName = .istioVetOperation) :
    (ApplyOperation parse kh s (.ok ops) c st sn opReq).task
      = some (istioVetTask c opReq.k8sConfigs) ∧
    ∀ ks : List String,
      (istioVetTask c ks).2.length = (c.runVet ks).length ∧
      ∀ (i : Nat) (h : i < (c.runVet ks).length),
        (istioVetTask c ks).2[i]? =
          some (match ((c.runVet ks).get ⟨i, h⟩).eventType with
            | .error => Push.error ((c.runVet ks).get ⟨i, h⟩)
                (ErrIstioVet ((c.runVet ks).get ⟨i, h⟩).details)
            | .warn => Push.warn ((c.runVet ks).get ⟨i, h⟩)
                (ErrIstioVet ((c.runVet ks).get ⟨i, h⟩).details)
            | .info => Push.info ((c.runVet ks).get ⟨i, h⟩)) := by
  refine ⟨by simp [ApplyOperation, hk, hop], ?_⟩
  intro ks
  refine ⟨by simp [istioVetTask], ?_⟩
  intro i h
  simp [istioVetTask, List.getElem?_map, List.getElem?_eq_getElem h,
    List.get_eq_getElem]

/-- Witness for C5: the concrete info, warning, error, info feed is forwarded
as exactly those four pushes in order, the error and warning ones wrapped
with the envelope derived from their details. -/
theorem C5_vet_forwarding_witness :
    (ApplyOperation parse0 kh0 () (.ok ops0) cVet "istio" "meshery-istio"
        reqVet).task = some (istioVetTask cVet []) ∧
    (istioVetTask cVet []).2.length = (cVet.runVet []).length := by
  have h := C5_vet_forwarding parse0 kh0 () ops0 cVet "istio" "meshery-istio"
    reqVet rfl rfl
  exact ⟨h.1, (h.2 []).1⟩

/-- A payload that fails to parse contributes only its error: no handler
call happens and the handler state is untouched. -/
theorem processOne_parse_error {σ : Type} (parse : String → Except String Kubeconfig)
    (kh : KubeconfigHandler σ) (s : σ) (p e : String) (hp : parse p = .error e) :
    processOne parse kh s p = (s, [], [e]) := by
  simp [processOne, hp]

/-- Dropping the unparseable payloads changes neither the final handler
state nor the performed writes: each parseable payload is merged exactly as
if the failing ones were absent. -/
theorem createKubeconfigsAux_filter_parseable {σ : Type}
    (parse : String → Except String Kubeconfig) (kh : KubeconfigHandler σ)
    (ks : List String) : ∀ s : σ,
    (createKubeconfigsAux parse kh s ks).1 =
      (createKubeconfigsAux parse kh s (ks.filter fun p => (parse p).isOk)).1 ∧
    (createKubeconfigsAux parse kh s ks).2.1 =
      (createKubeconfigsAux parse kh s (ks.filter fun p => (parse p).isOk)).2.1 := by
  induction ks with
  | nil => exact fun s => ⟨rfl, rfl⟩
  | cons p rest ih =>
    intro s
    by_cases hp : (parse p).isOk
    · have ihr := ih (processOne parse kh s p).1
      constructor <;>
        simp [createKubeconfigsAux, List.filter_cons, hp, ihr.1, ihr.2]
    · obtain ⟨e, he⟩ : ∃ e, parse p = .error e := by
        cases hpe : parse p with
        | error e => exact ⟨e, rfl⟩
        | ok k => rw [hpe] at hp; simp [Except.isOk, Except.toBool] at hp
      have hone := processOne_parse_error parse kh s p e he
      have ihr := ih s
      constructor <;>
        simp [createKubeconfigsAux, List.filter_cons, hp, hone, ihr.1, ihr.2]

/-- Every recorded sub-error occurs verbatim inside the aggregation. -/
theorem mergeErrors_infix {l : List String} {m : String} (hm : m ∈ l) :
    ∃ pre post, mergeErrors l = pre ++ m ++ post := by
  induction l with
  | nil => cases hm
  | cons e rest ih =>
    cases rest with
    | nil =>
      rcases List.mem_singleton.mp hm with rfl
      exact ⟨"", "", by simp [mergeErrors]⟩
    | cons b bs =>
      rcases List.mem_cons.mp hm with rfl | hm2
      · exact ⟨"", "\n" ++ mergeErrors (b :: bs), by
          simp [mergeErrors, String.append_assoc]⟩
      · obtain ⟨pre, post, hpp⟩ := ih hm2
        exact ⟨e ++ "\n" ++ pre, post, by
          simp [mergeErrors, hpp, String.append_assoc]⟩

/-- C3: kubeconfig ingestion (i) merges every parseable payload exactly as
if the unparseable ones were absent (no failure blocks the rest, nothing is
rolled back); (ii) returns nil exactly when no payload failed to parse or
merge; (iii) processes strictly in input order, each payload contributing
its recorded failure and then continuing with the next from the updated
handler state; and (iv) when it fails, the single aggregated error contains
the message of every constituent failure. -/
theorem C3_ingestion_aggregation :
    (∀ (σ : Type) (parse : String → Except String Kubeconfig)
        (kh : KubeconfigHandler σ) (s : σ) (ks : List String),
      (createKubeconfigsAux parse kh s ks).1 =
        (createKubeconfigsAux parse kh s (ks.filter fun p => (parse p).isOk)).1 ∧
      (createKubeconfigsAux parse kh s ks).2.1 =
        (createKubeconfigsAux parse kh s (ks.filter fun p => (parse p).isOk)).2.1) ∧
    (∀ (σ : Type) (parse : String → Except String Kubeconfig)
        (kh : KubeconfigHandler σ) (s : σ) (ks : List String),
      (CreateKubeconfigs parse kh s ks).2.2 = none ↔
        (createKubeconfigsAux parse kh s ks).2.2 = []) ∧
    (∀ (σ : Type) (parse : String → Except String Kubeconfig)
        (kh : KubeconfigHandler σ) (s : σ) (p : String) (ks : List String),
      (createKubeconfigsAux parse kh s (p :: ks)).2.2 =
        (processOne parse kh s p).2.2 ++
          (createKubeconfigsAux parse kh (processOne parse kh s p).1 ks).2.2) ∧
    (∀ (σ : Type) (parse : String → Except String Kubeconfig)
        (kh : KubeconfigHandler σ) (s : σ) (ks : List String) (agg m : String),
      (CreateKubeconfigs parse kh s ks).2.2 = some agg →
      m ∈ (createKubeconfigsAux parse kh s ks).2.2 →
      ∃ pre post, agg = pre ++ m ++ post) := by
  refine ⟨?_, ?_, ?_, ?_⟩
  · intro σ parse kh s ks
    exact createKubeconfigsAux_filter_parseable parse kh ks s
  · intro σ parse kh s ks
    simp only [CreateKubeconfigs]
    split <;> simp_all
  · intro σ parse kh s p ks
    simp [createKubeconfigsAux]
  · intro σ parse kh s ks agg m hagg hm
    simp only [CreateKubeconfigs] at hagg
    split at hagg
    · cases hagg
    · obtain rfl := Option.some_injective _ hagg.symm
      exact mergeErrors_infix hm

/-- Witness for C3: a concrete batch whose only payload fails to parse; the
aggregated error contains that parse failure's message. -/
theorem C3_ingestion_aggregation_witness :
    ∃ pre post, ("bad yaml" : String) = pre ++ "bad yaml" ++ post := by
  have h := C3_ingestion_aggregation.2.2.2 Unit parse0 kh0 () ["bad"]
    "bad yaml" "bad yaml" rfl (by decide)
  exact h

/-- The handler state reached after the three scalar `SetKey` writes of one
parsed payload (istio/istio.go lines 265-267). -/
def scalarKeysState {σ : Type} (kh : KubeconfigHandler σ) (s : σ) (k : Kubeconfig) : σ :=
  (kh.setKey ((kh.setKey ((kh.setKey s "kind" k.kind).1) "apiVersion"
    k.apiVersion).1) "current-context" k.currentContext).1

/-- C10: when merging a successfully parsed payload's collections fails
part-way — at whichever of the four collections the first failing
`SetObject` occurs — the payload's scalar keys and every collection merged
before the failing one remain written (nothing is rolled back), exactly that
one error is recorded for the payload, and processing continues with the
remaining payloads from the post-failure handler state.  The first conjunct
is the continuation property for any payload outcome; the other four cover
the failure occurring at preferences, clusters, users, and contexts
respectively. -/
theorem C10_partial_merge_not_rolled_back {σ : Type}
    (parse : String → Except String Kubeconfig) (kh : KubeconfigHandler σ)
    (s : σ) (p : String) (rest : List String) (k : Kubeconfig)
    (hp : parse p = .ok k) :
    (∀ (sf : σ) (tr : List KWrite) (m : String),
      processOne parse kh s p = (sf, tr, [m]) →
      createKubeconfigsAux parse kh s (p :: rest) =
        ((createKubeconfigsAux parse kh sf rest).1,
          tr ++ (createKubeconfigsAux parse kh sf rest).2.1,
          m :: (createKubeconfigsAux parse kh sf rest).2.2)) ∧
    (∀ (s4 : σ) (m : String),
      kh.setObject (scalarKeysState kh s k) "preferences" k.preferences
        = (s4, some m) →
      processOne parse kh s p =
        (s4, [KWrite.setKey "kind" k.kind, KWrite.setKey "apiVersion" k.apiVersion,
          KWrite.setKey "current-context" k.currentContext], [m])) ∧
    (∀ (s4 s5 : σ) (m : String),
      kh.setObject (scalarKeysState kh s k) "preferences" k.preferences
        = (s4, none) →
      kh.setObject s4 "clusters" k.clusters = (s5, some m) →
      processOne parse kh s p =
        (s5, [KWrite.setKey "kind" k.kind, KWrite.setKey "apiVersion" k.apiVersion,
          KWrite.setKey "current-context" k.currentContext,
          KWrite.setObject "preferences" k.preferences], [m])) ∧
    (∀ (s4 s5 s6 : σ) (m : String),
      kh.setObject (scalarKeysState kh s k) "preferences" k.preferences
        = (s4, none) →
      kh.setObject s4 "clusters" k.clusters = (s5, none) →
      kh.setObject s5 "users" k.users = (s6, some m) →
      processOne parse kh s p =
        (s6, [KWrite.setKey "kind" k.kind, KWrite.setKey "apiVersion" k.apiVersion,
          KWrite.setKey "current-context" k.currentContext,
          KWrite.setObject "preferences" k.preferences,
          KWrite.setObject "clusters" k.clusters], [m])) ∧
    (∀ (s4 s5 s6 s7 : σ) (m : String),
      kh.setObject (scalarKeysState kh s k) "preferences" k.preferences
        = (s4, none) →
      kh.setObject s4 "clusters" k.clusters = (s5, none) →
      kh.setObject s5 "users" k.users = (s6, none) →
      kh.setObject s6 "contexts" k.contexts = (s7, some m) →
      processOne parse kh s p =
        (s7, [KWrite.setKey "kind" k.kind, KWrite.setKey "apiVersion" k.apiVersion,
          KWrite.setKey "current-context" k.currentContext,
          KWrite.setObject "preferences" k.preferences,
          KWrite.setObject "clusters" k.clusters,
          KWrite.setObject "users" k.users], [m])) := by
  refine ⟨?_, ?_, ?_, ?_, ?_⟩
  · intro sf tr m hone
    simp [createKubeconfigsAux, hone]
  · intro s4 m h4
    simp [processOne, hp, scalarKeysState] at h4 ⊢
    simp [h4]
  · intro s4 s5 m h4 h5
    simp [processOne, hp, scalarKeysState] at h4 ⊢
    simp [h4, h5]
  · intro s4 s5 s6 m h4 h5 h6
    simp [processOne, hp, scalarKeysState] at h4 ⊢
    simp [h4, h5, h6]
  · intro s4 s5 s6 s7 m h4 h5 h6 h7
    simp [processOne, hp, scalarKeysState] at h4 ⊢
    simp [h4, h5, h6, h7]

/-- Witness for C10: a concrete payload parsed successfully whose clusters
merge fails; the scalars and preferences stay, one error is recorded, and
the following payload is still processed. -/
theorem C10_partial_merge_not_rolled_back_witness :
    processOne parse0 khFailClusters () "good" =
      ((), [KWrite.setKey "kind" "Config", KWrite.setKey "apiVersion" "v1",
        KWrite.setKey "current-context" "ctx",
        KWrite.setObject "preferences" "prefs-good"], ["merge failed"]) ∧
    createKubeconfigsAux parse0 khFailClusters () ["good", "bad"] =
      ((createKubeconfigsAux parse0 khFailClusters () ["bad"]).1,
        [KWrite.setKey "kind" "Config", KWrite.setKey "apiVersion" "v1",
          KWrite.setKey "current-context" "ctx",
          KWrite.setObject "preferences" "prefs-good"]
          ++ (createKubeconfigsAux parse0 khFailClusters () ["bad"]).2.1,
        "merge failed" :: (createKubeconfigsAux parse0 khFailClusters () ["bad"]).2.2) := by
  have h := C10_partial_merge_not_rolled_back parse0 khFailClusters () "good" ["bad"]
    { kind := "Config", apiVersion := "v1", currentContext := "ctx",
      preferences := "prefs-good", clusters := "cl-good", users := "us-good",
      contexts := "cx-good" } rfl
  have hone := h.2.2.1 () () "merge failed" rfl rfl
  exact ⟨hone, h.1 () _ "merge failed" hone⟩

/-- A concrete meshkit-style failure value. -/
def mkErr0 : MKError := { message := "boom", code := "EC1", cause := "c", remedy := "r" }

/-- A concrete component parser that accepts every descriptor. -/
def parseCompOk : String → Except String Component := fun a => .ok a

/-- A concrete configuration parser that accepts the raw text. -/
def parseCfg0 : String → OAMConfig × Option String := fun cfg => (cfg, none)

/-- Concrete OAM phase collaborators that both succeed. -/
def oc0 : OAMCollaborators :=
  { handleComponents := fun _ _ _ => ("A", none)
    handleApplicationConfiguration := fun _ _ _ => ("B", none) }

/-- Concrete OAM phase collaborators whose components phase fails. -/
def ocCompsFail : OAMCollaborators :=
  { handleComponents := fun _ _ _ => ("A", some mkErr0)
    handleApplicationConfiguration := fun _ _ _ => ("B", none) }

/-- A concrete create-flow OAM request. -/
def reqOAMCreate : OAMRequest :=
  { oamComps := ["c1"], oamConfig := "cfg", deleteOp := false, k8sConfigs := [] }

/-- A concrete delete-flow OAM request. -/
def reqOAMDelete : OAMRequest :=
  { oamComps := ["c1"], oamConfig := "cfg", deleteOp := true, k8sConfigs := [] }

/-- C4: with delete-flag=false `ProcessOAM` calls the components handler
first and the configuration handler (if at all) strictly after it; with
delete-flag=true the configuration handler is called first and the
components handler (if at all) strictly after it. -/
theorem C4_phase_ordering {σ : Type} (parse : String → Except String Kubeconfig)
    (kh : KubeconfigHandler σ) (s : σ)
    (parseComp : String → Except String Component)
    (parseCfg : String → OAMConfig × Option String)
    (oc : OAMCollaborators) (oamReq : OAMRequest)
    (hk : (CreateKubeconfigs parse kh s oamReq.k8sConfigs).2.2 = none) :
    (oamReq.deleteOp = false →
      (ProcessOAM parse kh s parseComp parseCfg oc oamReq).1 =
        [OAMCall.handleComponents
          (oamReq.oamComps.filterMap fun a => (parseComp a).toOption) false
          oamReq.k8sConfigs] ∨
      (ProcessOAM parse kh s parseComp parseCfg oc oamReq).1 =
        [OAMCall.handleComponents
          (oamReq.oamComps.filterMap fun a => (parseComp a).toOption) false
          oamReq.k8sConfigs,
          OAMCall.handleConfiguration (parseCfg oamReq.oamConfig).1 false
          oamReq.k8sConfigs]) ∧
    (oamReq.deleteOp = true →
      (ProcessOAM parse kh s parseComp parseCfg oc oamReq).1 =
        [OAMCall.handleConfiguration (parseCfg oamReq.oamConfig).1 true
          oamReq.k8sConfigs] ∨
      (ProcessOAM parse kh s parseComp parseCfg oc oamReq).1 =
        [OAMCall.handleConfiguration (parseCfg oamReq.oamConfig).1 true
          oamReq.k8sConfigs,
          OAMCall.handleComponents
          (oamReq.oamComps.filterMap fun a => (parseComp a).toOption) true
          oamReq.k8sConfigs]) := by
  constructor
  · intro hdel
    cases h1 : (oc.handleComponents
        (oamReq.oamComps.filterMap fun a => (parseComp a).toOption) false
        oamReq.k8sConfigs).2 with
    | some err => left; simp [ProcessOAM, hk, hdel, h1]
    | none =>
      cases h2 : (oc.handleApplicationConfiguration (parseCfg oamReq.oamConfig).1
          false oamReq.k8sConfigs).2 with
      | some err => right; simp [ProcessOAM, hk, hdel, h1, h2]
      | none => right; simp [ProcessOAM, hk, hdel, h1, h2]
  · intro hdel
    cases h2 : (oc.handleApplicationConfiguration (parseCfg oamReq.oamConfig).1
        true oamReq.k8sConfigs).2 with
    | some err => left; simp [ProcessOAM, hk, hdel, h2]
    | none =>
      cases h1 : (oc.handleComponents
          (oamReq.oamComps.filterMap fun a => (parseComp a).toOption) true
          oamReq.k8sConfigs).2 with
      | some err => right; simp [ProcessOAM, hk, hdel, h2, h1]
      | none => right; simp [ProcessOAM, hk, hdel, h2, h1]

/-- Witness for C4 at a concrete create-flow request: the components call
comes first. -/
theorem C4_phase_ordering_witness :
    (ProcessOAM parse0 kh0 () parseCompOk parseCfg0 oc0 reqOAMCreate).1 =
      [OAMCall.handleComponents ["c1"] false []] ∨
    (ProcessOAM parse0 kh0 () parseCompOk parseCfg0 oc0 reqOAMCreate).1 =
      [OAMCall.handleComponents ["c1"] false [],
        OAMCall.handleConfiguration "cfg" false []] := by
  have h := (C4_phase_ordering parse0 kh0 () parseCompOk parseCfg0 oc0 reqOAMCreate
    rfl).1 rfl
  exact h

/-- C7 counterexample: at a concrete create-flow call whose components phase
fails with message "A" (configuration phase would report "B"), `ProcessOAM`
returns just "A" — not the claimed concatenation of the two phase
messages. -/
theorem C7_counterexample :
    (ProcessOAM parse0 kh0 () parseCompOk parseCfg0 ocCompsFail reqOAMCreate).2.1
      = "A" ∧
    ("A" : String) ≠ "A" ++ "\n" ++ "B" :=
  ⟨rfl, by decide⟩

/-- C7 amended: the composite message is the components message, a newline,
and the configuration message whenever the phase executed first succeeds
(even if the second phase fails), under either delete-flag; but when the
first-executed phase fails, only that phase's message is returned. -/
theorem C7_message_shape {σ : Type} (parse : String → Except String Kubeconfig)
    (kh : KubeconfigHandler σ) (s : σ)
    (parseComp : String → Except String Component)
    (parseCfg : String → OAMConfig × Option String)
    (oc : OAMCollaborators) (oamReq : OAMRequest)
    (hk : (CreateKubeconfigs parse kh s oamReq.k8sConfigs).2.2 = none) :
    (oamReq.deleteOp = false →
      ((oc.handleComponents
          (oamReq.oamComps.filterMap fun a => (parseComp a).toOption) false
          oamReq.k8sConfigs).2 = none →
        (ProcessOAM parse kh s parseComp parseCfg oc oamReq).2.1 =
          (oc.handleComponents
            (oamReq.oamComps.filterMap fun a => (parseComp a).toOption) false
            oamReq.k8sConfigs).1 ++ "\n" ++
          (oc.handleApplicationConfiguration (parseCfg oamReq.oamConfig).1 false
            oamReq.k8sConfigs).1) ∧
      (∀ err, (oc.handleComponents
          (oamReq.oamComps.filterMap fun a => (parseComp a).toOption) false
          oamReq.k8sConfigs).2 = some err →
        (ProcessOAM parse kh s parseComp parseCfg oc oamReq).2.1 =
          (oc.handleComponents
            (oamReq.oamComps.filterMap fun a => (parseComp a).toOption) false
            oamReq.k8sConfigs).1)) ∧
    (oamReq.deleteOp = true →
      ((oc.handleApplicationConfiguration (parseCfg oamReq.oamConfig).1 true
          oamReq.k8sConfigs).2 = none →
        (ProcessOAM parse kh s parseComp parseCfg oc oamReq).2.1 =
          (oc.handleComponents
            (oamReq.oamComps.filterMap fun a => (parseComp a).toOption) true
            oamReq.k8sConfigs).1 ++ "\n" ++
          (oc.handleApplicationConfiguration (parseCfg oamReq.oamConfig).1 true
            oamReq.k8sConfigs).1) ∧
      (∀ err, (oc.handleApplicationConfiguration (parseCfg oamReq.oamConfig).1 true
          oamReq.k8sConfigs).2 = some err →
        (ProcessOAM parse kh s parseComp parseCfg oc oamReq).2.1 =
          (oc.handleApplicationConfiguration (parseCfg oamReq.oamConfig).1 true
            oamReq.k8sConfigs).1)) := by
  constructor
  · intro hdel
    constructor
    · intro h1
      cases h2 : (oc.handleApplicationConfiguration (parseCfg oamReq.oamConfig).1
          false oamReq.k8sConfigs).2 <;>
        simp [ProcessOAM, hk, hdel, h1, h2]
    · intro err h1
      simp [ProcessOAM, hk, hdel, h1]
  · intro hdel
    constructor
    · intro h2
      cases h1 : (oc.handleComponents
          (oamReq.oamComps.filterMap fun a => (parseComp a).toOption) true
          oamReq.k8sConfigs).2 <;>
        simp [ProcessOAM, hk, hdel, h2, h1]
    · intro err h2
      simp [ProcessOAM, hk, hdel, h2]

/-- Witness for the amended C7: the create-flow components failure returns
just the components message. -/
theorem C7_message_shape_witness :
    (ProcessOAM parse0 kh0 () parseCompOk parseCfg0 ocCompsFail reqOAMCreate).2.1
      = "A" :=
  ((C7_message_shape parse0 kh0 () parseCompOk parseCfg0 ocCompsFail reqOAMCreate
    rfl).1 rfl).2 mkErr0 rfl

end MesheryIstio
